import Mathlib

/-!
Verification development for the sourcing-assistant application
(`src/app.py`).  The file embeds the application's pure core: catalog
loading, the category keyword table, category resolution and supplier
lookup (`find_distributors`), and the three AI-backed operations
(`get_product_ideas`, `verify_legitimacy`, `generate_outreach_email`)
together with their deterministic fallbacks.  The external
text-generation service is modelled as an input of type
`Except Unit String`: `Except.error ()` is a failed request and
`Except.ok content` a response whose text is `content`.  Python dicts
and the values returned by `json.loads` are modelled by the `Json`
type below; the JSON parser models `json.loads` on the JSON subset the
application manipulates (null, booleans, integers, strings, arrays,
objects), including the requirement that the whole input be consumed.
-/

/-- JSON values: the results of `json.loads` and the dict/list literals
built by the application's fallback branches. -/
inductive Json : Type
| null : Json
| bool (b : Bool) : Json
| num (n : Int) : Json
| str (s : String) : Json
| arr (elems : List Json) : Json
| obj (fields : List (String × Json)) : Json

/-- Drop leading JSON whitespace. -/
def skipWs : List Char → List Char
| [] => []
| c :: cs => if c = ' ' ∨ c = '\n' ∨ c = '\t' ∨ c = '\r' then skipWs cs else c :: cs

/-- Translation of a JSON string escape character. -/
def escChar (e : Char) : Option Char :=
  if e = '"' ∨ e = '\\' ∨ e = '/' then some e
  else if e = 'n' then some (Char.ofNat 10)
  else if e = 't' then some (Char.ofNat 9)
  else if e = 'r' then some (Char.ofNat 13)
  else if e = 'b' then some (Char.ofNat 8)
  else if e = 'f' then some (Char.ofNat 12)
  else none

/-- Parse the body of a JSON string (the opening quote already consumed),
returning the string contents and the rest of the input. -/
def parseStrBody : List Char → Option (List Char × List Char)
| [] => none
| '"' :: cs => some ([], cs)
| '\\' :: [] => none
| '\\' :: e :: cs =>
  match escChar e with
  | some ec =>
    match parseStrBody cs with
    | some (s, rest) => some (ec :: s, rest)
    | none => none
  | none => none
| c :: cs =>
  match parseStrBody cs with
  | some (s, rest) => some (c :: s, rest)
  | none => none

/-- Numeric value of a list of decimal digits. -/
def digitsToNat (ds : List Char) : Nat :=
  ds.foldl (fun n c => n * 10 + (c.toNat - ('0').toNat)) 0

/-- Parse a nonempty run of decimal digits. -/
def parseNatPart (l : List Char) : Option (Nat × List Char) :=
  let p := l.span Char.isDigit
  if p.1 = [] then none else some (digitsToNat p.1, p.2)

mutual

/-- Parse one JSON value (fuel-indexed recursive descent). -/
def parseVal : Nat → List Char → Option (Json × List Char)
| 0, _ => none
| Nat.succ fuel, input =>
  match skipWs input with
  | [] => none
  | '"' :: cs =>
    match parseStrBody cs with
    | some (s, rest) => some (Json.str (String.mk s), rest)
    | none => none
  | '[' :: cs =>
    match skipWs cs with
    | ']' :: rest => some (Json.arr [], rest)
    | _ =>
      match parseItems fuel cs with
      | some (vs, rest) => some (Json.arr vs, rest)
      | none => none
  | '\x7b' :: cs =>
    match skipWs cs with
    | '\x7d' :: rest => some (Json.obj [], rest)
    | _ =>
      match parseFields fuel cs with
      | some (fs, rest) => some (Json.obj fs, rest)
      | none => none
  | 't' :: 'r' :: 'u' :: 'e' :: rest => some (Json.bool true, rest)
  | 'f' :: 'a' :: 'l' :: 's' :: 'e' :: rest => some (Json.bool false, rest)
  | 'n' :: 'u' :: 'l' :: 'l' :: rest => some (Json.null, rest)
  | '-' :: cs =>
    match parseNatPart cs with
    | some (n, rest) => some (Json.num (-(n : Int)), rest)
    | none => none
  | c :: cs =>
    if c.isDigit then
      match parseNatPart (c :: cs) with
      | some (n, rest) => some (Json.num (n : Int), rest)
      | none => none
    else none

/-- Parse the elements of a nonempty JSON array up to the closing bracket. -/
def parseItems : Nat → List Char → Option (List Json × List Char)
| 0, _ => none
| Nat.succ fuel, input =>
  match parseVal fuel input with
  | some (v, rest) =>
    match skipWs rest with
    | ',' :: rest2 =>
      match parseItems fuel rest2 with
      | some (vs, rest3) => some (v :: vs, rest3)
      | none => none
    | ']' :: rest2 => some ([v], rest2)
    | _ => none
  | none => none

/-- Parse the fields of a nonempty JSON object up to the closing brace. -/
def parseFields : Nat → List Char → Option (List (String × Json) × List Char)
| 0, _ => none
| Nat.succ fuel, input =>
  match skipWs input with
  | '"' :: cs =>
    match parseStrBody cs with
    | some (k, rest) =>
      match skipWs rest with
      | ':' :: rest2 =>
        match parseVal fuel rest2 with
        | some (v, rest3) =>
          match skipWs rest3 with
          | ',' :: rest4 =>
            match parseFields fuel rest4 with
            | some (fs, rest5) => some ((String.mk k, v) :: fs, rest5)
            | none => none
          | '\x7d' :: rest4 => some ([(String.mk k, v)], rest4)
          | _ => none
        | none => none
      | _ => none
    | none => none
  | _ => none

end

/-- Model of Python's `json.loads`: parse one JSON value and require that
only whitespace remains (otherwise `json.loads` raises). -/
def json_loads (s : String) : Option Json :=
  match parseVal (2 * s.toList.length + 2) s.toList with
  | some (j, rest) => if skipWs rest = [] then some j else none
  | none => none

/-- Index of the last occurrence of a character, mirroring Python's
`str.rfind` (with `none` for the result -1). -/
def last_idx (l : List Char) (c : Char) : Option Nat :=
  match l.reverse.findIdx? (fun x => x = c) with
  | some i => some (l.length - 1 - i)
  | none => none

/-- JSON-substring extraction used in `get_product_ideas` (with `'['`/`']'`)
and `verify_legitimacy` (with braces): `start = content.find(oc)`,
`end = content.rfind(cc) + 1`, and the slice `content[start:end]` when
`start != -1 and end > start`, `none` otherwise. -/
def extract_json (oc cc : Char) (content : String) : Option String :=
  let l := content.toList
  let e : Nat :=
    match last_idx l cc with
    | some j => j + 1
    | none => 0
  match l.findIdx? (fun x => x = oc) with
  | some s => if s < e then some (String.mk ((l.drop s).take (e - s))) else none
  | none => none

/-- Test whether the first list is a prefix of the second. -/
def prefix_at (pat text : List Char) : Bool :=
  match pat, text with
  | [], _ => true
  | a :: as, b :: bs => if a = b then prefix_at as bs else false
  | _ :: _, [] => false

/-- Substring containment, mirroring Python's `needle in hay` on strings:
the needle occurs contiguously somewhere in the hay. -/
def str_in (needle hay : List Char) : Bool :=
  match hay with
  | [] => prefix_at needle []
  | _ :: t => prefix_at needle hay || str_in needle t

/-- Supplier record, as stored in the catalog and consumed by
`verify_legitimacy` and `generate_outreach_email`. -/
structure Supplier : Type where
  name : String
  location : String
  website : String
  email : String
  legitimacy_signals : List String
  has_3pl : Bool
deriving DecidableEq

/-- Catalog: mapping from category key to the ordered list of suppliers,
in load order (Python dict preserves insertion order). -/
abbrev Catalog : Type := List (String × List Supplier)

/-- Catalog loader (`load_distributors`): the backing file is modelled as
`none` when missing, `some content` otherwise; a missing file or a
`json.loads` failure raises inside the `try`, and the handler returns the
empty dict. -/
def load_distributors (file : Option String) : Json :=
  match file with
  | none => Json.obj []
  | some content =>
    match json_loads content with
    | some j => j
    | none => Json.obj []

/-- The fixed category keyword table `CATEGORY_MAP`, in declaration order. -/
def CATEGORY_MAP : List (String × List String) :=
  [("pet", ["pet_products"]),
   ("electronics", ["electronics"]),
   ("phone", ["electronics"]),
   ("wireless", ["electronics"]),
   ("health", ["health_wellness"]),
   ("vitamin", ["health_wellness"]),
   ("supplement", ["health_wellness"])]

/-- Python's `str.lower()`, character by character (the strings involved
are ASCII). -/
def lower (l : List Char) : List Char := l.map Char.toLower

/-- Keyword matching loop of `find_distributors` (lines 91-94): for each
`(key, cats)` of `CATEGORY_MAP`, if `key.lower() in category.lower()` then
extend the accumulator with `cats`. -/
def category_matches (category : String) : List String :=
  CATEGORY_MAP.foldl
    (fun acc p =>
      if str_in (lower p.1.toList) (lower category.toList) then acc ++ p.2
      else acc)
    []

/-- Category resolution including the fallback (lines 91-97): when no
keyword matched, use all catalog keys. -/
def resolve_categories (DISTRIBUTORS : Catalog) (category : String) : List String :=
  let dist_categories := category_matches category
  if dist_categories = [] then DISTRIBUTORS.map Prod.fst else dist_categories

/-- Supplier collection loop (lines 100-103): for each resolved key present
in the catalog, extend the accumulator with its supplier list. -/
def collect_found (DISTRIBUTORS : Catalog) (dist_categories : List String) : List Supplier :=
  dist_categories.foldl
    (fun acc cat =>
      match DISTRIBUTORS.lookup cat with
      | some l => acc ++ l
      | none => acc)
    []

/-- Truncation step (line 105): `found[:4] if found else []`. -/
def find_found (DISTRIBUTORS : Catalog) (dist_categories : List String) : List Supplier :=
  let found := collect_found DISTRIBUTORS dist_categories
  if found ≠ [] then found.take 4 else []

/-- The full `find_distributors` (the `product_name` argument is accepted
and ignored, as in the source). -/
def find_distributors (DISTRIBUTORS : Catalog) (category : String)
    (product_name : String) : List Supplier :=
  find_found DISTRIBUTORS (resolve_categories DISTRIBUTORS category)

/-- Fallback product list of `get_product_ideas` (lines 78-86): one dict
per `i` in `range(count)`. -/
def fallback_products (category : String) (count : Nat) : List Json :=
  (List.range count).map (fun i => Json.obj
    [("name", Json.str ("Popular " ++ category ++ " Product " ++ toString (i + 1))),
     ("description", Json.str ("High-demand " ++ category ++ " item with proven sales")),
     ("price", Json.str ("$" ++ toString (20 + i * 10) ++ "-" ++ toString (30 + i * 10))),
     ("profit_score", Json.num ((70 + i * 5 : Nat) : Int)),
     ("demand", Json.str ("High"))])

/-- Product-ideation operation: on a successful request, extract the
bracketed substring and parse it, returning the parsed value; any failure
(service error, no JSON found, parse error) lands in the handler, which
returns the fallback list. -/
def get_product_ideas (service : Except Unit String) (category : String)
    (count : Nat) : Json :=
  match service with
  | Except.error _ => Json.arr (fallback_products category count)
  | Except.ok content =>
    match extract_json '[' ']' content with
    | some s =>
      match json_loads s with
      | some products => products
      | none => Json.arr (fallback_products category count)
    | none => Json.arr (fallback_products category count)

/-- Fallback scoring branch of `verify_legitimacy` (lines 140-147):
`score = 50 + len(signals) * 10`, clamped to 95 in the returned dict, with
the risk computed from the unclamped `score`. -/
def fallback_scoring (distributor : Supplier) : Json :=
  let signals := distributor.legitimacy_signals
  let score := 50 + signals.length * 10
  Json.obj
    [("score", Json.num ((min score 95 : Nat) : Int)),
     ("reasoning", Json.str ("Distributor has " ++ toString signals.length ++
        " verification signals including " ++
        String.intercalate (", ") (signals.take 2) ++ ".")),
     ("risk", Json.str (if 70 < score then ("Low") else ("Medium")))]

/-- Legitimacy-check operation: on success, extract the braced substring
and parse it, returning the parsed value unchanged; any failure lands in
the handler, which returns the fallback score dict. -/
def verify_legitimacy (service : Except Unit String) (distributor : Supplier) : Json :=
  match service with
  | Except.error _ => fallback_scoring distributor
  | Except.ok content =>
    match extract_json '\x7b' '\x7d' content with
    | some s =>
      match json_loads s with
      | some result => result
      | none => fallback_scoring distributor
    | none => fallback_scoring distributor

/-- Python `dict.get(key, default)` on a string-valued dict. -/
def dictGet (d : List (String × String)) (k default : String) : String :=
  match d.lookup k with
  | some v => v
  | none => default

/-- Static templated email of the `except` branch of
`generate_outreach_email` (lines 176-189). -/
def fallback_email (product_name : String) (distributor : Supplier)
    (user_info : List (String × String)) : String :=
  "Hello " ++ distributor.name ++ " Team,\n\nI\x27m reaching out from " ++
  dictGet user_info ("business_name") ("my e-commerce business") ++
  " regarding wholesale sourcing for " ++ product_name ++
  ".\n\nWe\x27re currently scaling our operations and looking for reliable suppliers who can provide:\n- Competitive wholesale pricing\n- Flexible MOQ options\n- Shipping to our prep center/3PL facility\n- Consistent inventory availability\n\nCould you please share your current pricing and terms for this product?\n\nBest regards,\n" ++
  dictGet user_info ("name") ("Business Owner")

/-- Email-drafting operation: on success, the response text stripped of
surrounding whitespace; on failure, the static templated email. -/
def generate_outreach_email (service : Except Unit String) (product_name : String)
    (distributor : Supplier) (user_info : List (String × String)) : String :=
  match service with
  | Except.ok content => content.trim
  | Except.error _ => fallback_email product_name distributor user_info

/-- Field access on a parsed JSON object, mirroring the display layer's
subscript accesses such as `verification[key]`. -/
def objGet (j : Json) (k : String) : Option Json :=
  match j with
  | Json.obj fields => fields.lookup k
  | _ => none

/-- The `score` of a verdict as read by the caller (`verification[(score)]`
at line 281), when it is a number. -/
def scoreOf (j : Json) : Option Int :=
  match objGet j ("score") with
  | some (Json.num n) => some n
  | _ => none

/-- The `risk` of a verdict as read by the caller (line 285), when it is a
string. -/
def riskOf (j : Json) : Option String :=
  match objGet j ("risk") with
  | some (Json.str s) => some s
  | _ => none

lemma collect_found_aux (DISTRIBUTORS : Catalog) (keys : List String) (acc : List Supplier) :
    keys.foldl
      (fun acc cat =>
        match DISTRIBUTORS.lookup cat with
        | some l => acc ++ l
        | none => acc)
      acc
    = acc ++ keys.flatMap (fun c => (DISTRIBUTORS.lookup c).getD []) := by
  induction keys generalizing acc with
  | nil => simp
  | cons k ks ih =>
    simp only [List.foldl_cons, List.flatMap_cons]
    cases h : DISTRIBUTORS.lookup k <;> simp [h, ih, List.append_assoc]

lemma collect_found_eq (DISTRIBUTORS : Catalog) (keys : List String) :
    collect_found DISTRIBUTORS keys
      = keys.flatMap (fun c => (DISTRIBUTORS.lookup c).getD []) := by
  have h := collect_found_aux DISTRIBUTORS keys []
  simpa [collect_found] using h

lemma category_matches_aux (category : String) (l : List (String × List String))
    (acc : List String) :
    l.foldl
      (fun acc p =>
        if str_in (lower p.1.toList) (lower category.toList) then acc ++ p.2
        else acc)
      acc
    = acc ++ l.flatMap
        (fun p => if str_in (lower p.1.toList) (lower category.toList) then p.2 else []) := by
  induction l generalizing acc with
  | nil => simp
  | cons q qs ih =>
    simp only [List.foldl_cons, List.flatMap_cons]
    by_cases h : str_in (lower q.1.toList) (lower category.toList) = true
    · rw [if_pos h, if_pos h, ih, List.append_assoc]
    · rw [if_neg h, if_neg h, ih, List.nil_append]

lemma category_matches_eq (category : String) :
    category_matches category
      = CATEGORY_MAP.flatMap
          (fun p => if str_in (lower p.1.toList) (lower category.toList) then p.2 else []) := by
  have h := category_matches_aux category CATEGORY_MAP []
  simpa [category_matches] using h

lemma mem_category_matches (category k : String) :
    k ∈ category_matches category ↔
      ∃ p ∈ CATEGORY_MAP,
        str_in (lower p.1.toList) (lower category.toList) = true ∧ k ∈ p.2 := by
  rw [category_matches_eq]
  simp only [List.mem_flatMap]
  constructor
  · rintro ⟨p, hp, hk⟩
    by_cases h : str_in (lower p.1.toList) (lower category.toList) = true
    · rw [if_pos h] at hk
      exact ⟨p, hp, h, hk⟩
    · rw [if_neg h] at hk
      exact absurd hk (List.not_mem_nil k)
  · rintro ⟨p, hp, h, hk⟩
    refine ⟨p, hp, ?_⟩
    rw [if_pos h]
    exact hk

/-- C4: a free-text category matching no keyword of the table (the empty
string included) resolves to the full list of catalog keys, hence to a
nonempty key list whenever the catalog is nonempty. -/
theorem claim_C4_no_match_falls_back (DISTRIBUTORS : Catalog) (category : String)
    (h : ∀ p ∈ CATEGORY_MAP, str_in (lower p.1.toList) (lower category.toList) = false) :
    resolve_categories DISTRIBUTORS category = DISTRIBUTORS.map Prod.fst
    ∧ (DISTRIBUTORS ≠ [] → resolve_categories DISTRIBUTORS category ≠ [])
    ∧ resolve_categories DISTRIBUTORS ("") = DISTRIBUTORS.map Prod.fst := by
  have hempty : category_matches category = [] := by
    rw [category_matches_eq, List.flatMap_eq_nil_iff]
    intro p hp
    have hc : ¬ (str_in (lower p.1.toList) (lower category.toList) = true) := by
      rw [h p hp]
      exact Bool.false_ne_true
    rw [if_neg hc]
  have hemptystr : category_matches ("") = [] := by decide
  refine ⟨by simp [resolve_categories, hempty], ?_, by simp [resolve_categories, hemptystr]⟩
  intro hD
  simp [resolve_categories, hempty, hD]

/-- Witness for C4 at the category (zzz) and a one-key catalog. -/
theorem claim_C4_witness :
    resolve_categories [(("electronics" : String), ([] : List Supplier))] ("zzz")
      = ["electronics"] := by
  have h := claim_C4_no_match_falls_back [(("electronics" : String), ([] : List Supplier))]
    "zzz" (by decide)
  simpa using h.1

/-- C5: when at least one keyword of the table occurs (case-insensitively)
in the category, the resolved keys are exactly the union of the keys mapped
by the matched keywords: membership in the result is equivalent to being
mapped by some matched keyword. -/
theorem claim_C5_match_yields_union (DISTRIBUTORS : Catalog) (category : String)
    (h : ∃ p ∈ CATEGORY_MAP, str_in (lower p.1.toList) (lower category.toList) = true)
    (k : String) :
    k ∈ resolve_categories DISTRIBUTORS category ↔
      ∃ p ∈ CATEGORY_MAP,
        str_in (lower p.1.toList) (lower category.toList) = true ∧ k ∈ p.2 := by
  obtain ⟨p, hp, hcond⟩ := h
  have hne : ∀ q ∈ CATEGORY_MAP, q.2 ≠ [] := by decide
  obtain ⟨k0, hk0⟩ := List.exists_mem_of_ne_nil p.2 (hne p hp)
  have hmem : k0 ∈ category_matches category :=
    (mem_category_matches category k0).mpr ⟨p, hp, hcond, hk0⟩
  have hnn : category_matches category ≠ [] := List.ne_nil_of_mem hmem
  rw [resolve_categories]
  simp only [if_neg hnn]
  exact mem_category_matches category k

/-- Witness for C5 at the category (wireless earbuds): the only resolved
key is (electronics). -/
theorem claim_C5_witness :
    ("electronics" ∈ resolve_categories [] ("wireless earbuds")
      ↔ ∃ p ∈ CATEGORY_MAP,
          str_in (lower p.1.toList) (lower ("wireless earbuds").toList) = true
          ∧ "electronics" ∈ p.2)
    ∧ ¬ ("pet_products" ∈ resolve_categories [] ("wireless earbuds")) := by
  constructor
  · exact claim_C5_match_yields_union [] ("wireless earbuds")
      ⟨("wireless", ["electronics"]), by decide, by decide⟩ ("electronics")
  · intro hmem
    have h := (claim_C5_match_yields_union [] ("wireless earbuds")
      ⟨("wireless", ["electronics"]), by decide, by decide⟩ ("pet_products")).mp hmem
    exact absurd h (by decide)

/-- C6: the supplier finder returns the first 4 elements of the
concatenation, in key order, of the catalog entries of the resolved keys
present in the catalog; hence at most 4 suppliers, and the empty list when
no resolved key is in the catalog. -/
theorem claim_C6_find_truncates (DISTRIBUTORS : Catalog) (dist_categories : List String) :
    find_found DISTRIBUTORS dist_categories
      = (dist_categories.flatMap (fun c => (DISTRIBUTORS.lookup c).getD [])).take 4
    ∧ (find_found DISTRIBUTORS dist_categories).length ≤ 4
    ∧ ((∀ c ∈ dist_categories, DISTRIBUTORS.lookup c = none) →
        find_found DISTRIBUTORS dist_categories = []) := by
  have hff : find_found DISTRIBUTORS dist_categories
      = if collect_found DISTRIBUTORS dist_categories ≠ []
          then (collect_found DISTRIBUTORS dist_categories).take 4 else [] := rfl
  have heq : find_found DISTRIBUTORS dist_categories
      = (dist_categories.flatMap (fun c => (DISTRIBUTORS.lookup c).getD [])).take 4 := by
    rw [hff, collect_found_eq]
    by_cases hc : dist_categories.flatMap (fun c => (DISTRIBUTORS.lookup c).getD []) = []
    · rw [if_neg (fun hne => hne hc), hc]
      rfl
    · rw [if_pos hc]
  refine ⟨heq, ?_, ?_⟩
  · rw [heq]
    exact List.length_take_le 4 _
  · intro hall
    rw [heq]
    have : dist_categories.flatMap (fun c => (DISTRIBUTORS.lookup c).getD []) = [] := by
      rw [List.flatMap_eq_nil_iff]
      intro c hcm
      simp [hall c hcm]
    rw [this]
    rfl

/-- Witness for C6 on a concrete catalog and key list, with the
no-key-in-catalog hypothesis discharged on the empty catalog. -/
theorem claim_C6_witness :
    find_found ([] : Catalog) ["electronics"] = [] := by
  exact (claim_C6_find_truncates ([] : Catalog) ["electronics"]).2.2 (by decide)

/-- C10: a category containing both keywords (phone) and (wireless), which
map to the same key, makes the resolver emit that key twice, and the finder
then returns the same supplier record twice within its at-most-4 results. -/
theorem claim_C10_duplicate_suppliers :
    ∃ (category : String) (DISTRIBUTORS : Catalog) (s : Supplier),
      2 ≤ (category_matches category).count ("electronics")
      ∧ (find_distributors DISTRIBUTORS category ("")).count s = 2
      ∧ s ∈ find_distributors DISTRIBUTORS category ("") := by
  refine ⟨"wireless phone",
    [("electronics", [⟨"Acme", "NV", "acme.example", "a@acme.example", [], false⟩])],
    ⟨"Acme", "NV", "acme.example", "a@acme.example", [], false⟩, ?_, ?_, ?_⟩ <;> decide

lemma scoreOf_cons (m : Int) (rest : List (String × Json)) :
    scoreOf (Json.obj (("score", Json.num m) :: rest)) = some m := rfl

lemma riskOf_srr (a b : Json) (s : String) :
    riskOf (Json.obj [("score", a), ("reasoning", b), ("risk", Json.str s)]) = some s := rfl

lemma get_product_ideas_service_error (category : String) (count : Nat) :
    get_product_ideas (Except.error ()) category count
      = Json.arr (fallback_products category count) := rfl

lemma get_product_ideas_extract_none (content category : String) (count : Nat)
    (he : extract_json '[' ']' content = none) :
    get_product_ideas (Except.ok content) category count
      = Json.arr (fallback_products category count) := by
  show (match extract_json '[' ']' content with
    | some s =>
      match json_loads s with
      | some products => products
      | none => Json.arr (fallback_products category count)
    | none => Json.arr (fallback_products category count))
    = Json.arr (fallback_products category count)
  rw [he]

lemma get_product_ideas_parse_none (content st category : String) (count : Nat)
    (he : extract_json '[' ']' content = some st) (hp : json_loads st = none) :
    get_product_ideas (Except.ok content) category count
      = Json.arr (fallback_products category count) := by
  show (match extract_json '[' ']' content with
    | some s =>
      match json_loads s with
      | some products => products
      | none => Json.arr (fallback_products category count)
    | none => Json.arr (fallback_products category count))
    = Json.arr (fallback_products category count)
  rw [he]
  show (match json_loads st with
    | some products => products
    | none => Json.arr (fallback_products category count))
    = Json.arr (fallback_products category count)
  rw [hp]

lemma get_product_ideas_parse_some (content st category : String) (count : Nat) (j : Json)
    (he : extract_json '[' ']' content = some st) (hp : json_loads st = some j) :
    get_product_ideas (Except.ok content) category count = j := by
  show (match extract_json '[' ']' content with
    | some s =>
      match json_loads s with
      | some products => products
      | none => Json.arr (fallback_products category count)
    | none => Json.arr (fallback_products category count)) = j
  rw [he]
  show (match json_loads st with
    | some products => products
    | none => Json.arr (fallback_products category count)) = j
  rw [hp]

lemma verify_legitimacy_service_error (d : Supplier) :
    verify_legitimacy (Except.error ()) d = fallback_scoring d := rfl

lemma verify_legitimacy_extract_none (content : String) (d : Supplier)
    (he : extract_json '\x7b' '\x7d' content = none) :
    verify_legitimacy (Except.ok content) d = fallback_scoring d := by
  show (match extract_json '\x7b' '\x7d' content with
    | some s =>
      match json_loads s with
      | some result => result
      | none => fallback_scoring d
    | none => fallback_scoring d) = fallback_scoring d
  rw [he]

lemma verify_legitimacy_parse_none (content st : String) (d : Supplier)
    (he : extract_json '\x7b' '\x7d' content = some st) (hp : json_loads st = none) :
    verify_legitimacy (Except.ok content) d = fallback_scoring d := by
  show (match extract_json '\x7b' '\x7d' content with
    | some s =>
      match json_loads s with
      | some result => result
      | none => fallback_scoring d
    | none => fallback_scoring d) = fallback_scoring d
  rw [he]
  show (match json_loads st with
    | some result => result
    | none => fallback_scoring d) = fallback_scoring d
  rw [hp]

lemma verify_legitimacy_parse_some (content st : String) (d : Supplier) (j : Json)
    (he : extract_json '\x7b' '\x7d' content = some st) (hp : json_loads st = some j) :
    verify_legitimacy (Except.ok content) d = j := by
  show (match extract_json '\x7b' '\x7d' content with
    | some s =>
      match json_loads s with
      | some result => result
      | none => fallback_scoring d
    | none => fallback_scoring d) = j
  rw [he]
  show (match json_loads st with
    | some result => result
    | none => fallback_scoring d) = j
  rw [hp]

lemma extract_json_none_of_not_mem (oc cc : Char) (content : String)
    (h : oc ∉ content.toList) :
    extract_json oc cc content = none := by
  have hidx : content.toList.findIdx? (fun x => x = oc) = none := by
    rw [List.findIdx?_eq_none_iff]
    intro x hx
    simp only [decide_eq_false_iff_not]
    intro hxe
    exact h (hxe ▸ hx)
  show (match content.toList.findIdx? (fun x => x = oc) with
    | some s =>
      if s < (match last_idx content.toList cc with
        | some j => j + 1
        | none => 0)
        then some (String.mk ((content.toList.drop s).take
          ((match last_idx content.toList cc with
            | some j => j + 1
            | none => 0) - s)))
        else none
    | none => none) = none
  rw [hidx]

/-- C1: the fallback legitimacy scorer returns score min(50 + 10n, 95) for
n legitimacy signals, risk (Low) exactly when the returned score exceeds 70
and (Medium) otherwise, and the templated reasoning sentence embedding the
signal count and the first two signals; 0 signals give 50 and Medium, 3
give 80 and Low, 6 or more clamp the score to 95. -/
theorem claim_C1_fallback_scorer (d : Supplier) :
    fallback_scoring d = Json.obj
      [("score", Json.num ((min (50 + 10 * d.legitimacy_signals.length) 95 : Nat) : Int)),
       ("reasoning", Json.str ("Distributor has " ++ toString d.legitimacy_signals.length ++
          " verification signals including " ++
          String.intercalate (", ") (d.legitimacy_signals.take 2) ++ ".")),
       ("risk", Json.str (if 70 < min (50 + 10 * d.legitimacy_signals.length) 95
          then ("Low") else ("Medium")))]
    ∧ (d.legitimacy_signals.length = 0 →
        scoreOf (fallback_scoring d) = some 50
        ∧ riskOf (fallback_scoring d) = some ("Medium"))
    ∧ (d.legitimacy_signals.length = 3 →
        scoreOf (fallback_scoring d) = some 80
        ∧ riskOf (fallback_scoring d) = some ("Low"))
    ∧ (6 ≤ d.legitimacy_signals.length →
        scoreOf (fallback_scoring d) = some 95) := by
  have hub : fallback_scoring d = Json.obj
      [("score", Json.num ((min (50 + d.legitimacy_signals.length * 10) 95 : Nat) : Int)),
       ("reasoning", Json.str ("Distributor has " ++ toString d.legitimacy_signals.length ++
          " verification signals including " ++
          String.intercalate (", ") (d.legitimacy_signals.take 2) ++ ".")),
       ("risk", Json.str (if 70 < 50 + d.legitimacy_signals.length * 10
          then ("Low") else ("Medium")))] := rfl
  have hmin : min (50 + d.legitimacy_signals.length * 10) 95
      = min (50 + 10 * d.legitimacy_signals.length) 95 := by rw [Nat.mul_comm]
  have hrisk : (if 70 < 50 + d.legitimacy_signals.length * 10
        then ("Low" : String) else ("Medium"))
      = (if 70 < min (50 + 10 * d.legitimacy_signals.length) 95
        then ("Low") else ("Medium")) := by
    by_cases hl : 70 < 50 + d.legitimacy_signals.length * 10
    · rw [if_pos hl, if_pos (by omega)]
    · rw [if_neg hl, if_neg (by omega)]
  have hgen : fallback_scoring d = Json.obj
      [("score", Json.num ((min (50 + 10 * d.legitimacy_signals.length) 95 : Nat) : Int)),
       ("reasoning", Json.str ("Distributor has " ++ toString d.legitimacy_signals.length ++
          " verification signals including " ++
          String.intercalate (", ") (d.legitimacy_signals.take 2) ++ ".")),
       ("risk", Json.str (if 70 < min (50 + 10 * d.legitimacy_signals.length) 95
          then ("Low") else ("Medium")))] := by
    rw [hub, hmin, hrisk]
  refine ⟨hgen, ?_, ?_, ?_⟩
  · intro h0
    rw [hgen, h0]
    refine ⟨?_, ?_⟩
    · rw [scoreOf_cons]
      decide
    · rw [riskOf_srr]
      rw [if_neg (by decide)]
  · intro h3
    rw [hgen, h3]
    refine ⟨?_, ?_⟩
    · rw [scoreOf_cons]
      decide
    · rw [riskOf_srr]
      rw [if_pos (by decide)]
  · intro h6
    rw [hgen, scoreOf_cons]
    have h95 : min (50 + 10 * d.legitimacy_signals.length) 95 = 95 := by omega
    rw [h95]
    norm_num

/-- Witness for C1 at suppliers with 0, 3 and 6 legitimacy signals. -/
theorem claim_C1_witness :
    (scoreOf (fallback_scoring ⟨"A", "L", "W", "E", [], false⟩) = some 50
      ∧ riskOf (fallback_scoring ⟨"A", "L", "W", "E", [], false⟩) = some ("Medium"))
    ∧ (scoreOf (fallback_scoring ⟨"A", "L", "W", "E", ["a", "b", "c"], false⟩) = some 80
      ∧ riskOf (fallback_scoring ⟨"A", "L", "W", "E", ["a", "b", "c"], false⟩) = some ("Low"))
    ∧ scoreOf (fallback_scoring
        ⟨"A", "L", "W", "E", ["a", "b", "c", "d", "e", "f"], false⟩) = some 95 :=
  ⟨(claim_C1_fallback_scorer ⟨"A", "L", "W", "E", [], false⟩).2.1 rfl,
   (claim_C1_fallback_scorer ⟨"A", "L", "W", "E", ["a", "b", "c"], false⟩).2.2.1 rfl,
   (claim_C1_fallback_scorer
     ⟨"A", "L", "W", "E", ["a", "b", "c", "d", "e", "f"], false⟩).2.2.2 (by decide)⟩

/-- C7 counterexample: the first fallback product for (pet toys) has price
string ($20-30), not the spec template instance ($20 - $30): the dollar
sign is not repeated and there are no spaces around the dash. -/
theorem claim_C7_counterexample :
    ((fallback_products ("pet toys") 3).head?.bind (fun j => objGet j ("price")))
      = some (Json.str ("$20-30"))
    ∧ ¬ (((fallback_products ("pet toys") 3).head?.bind (fun j => objGet j ("price")))
      = some (Json.str ("$20 - $30"))) := by
  have h1 : ((fallback_products ("pet toys") 3).head?.bind (fun j => objGet j ("price")))
      = some (Json.str ("$20-30")) := rfl
  refine ⟨h1, ?_⟩
  intro h2
  have h3 : some (Json.str ("$20-30")) = some (Json.str ("$20 - $30")) := h1.symm.trans h2
  have h4 : Json.str ("$20-30") = Json.str ("$20 - $30") := Option.some.inj h3
  have h5 : ("$20-30" : String) = "$20 - $30" := by injection h4
  exact absurd h5 (by decide)

/-- C7 amended: the fallback product generator returns exactly count
entries; entry i is named (Popular category Product i+1), has price string
($ then 20+10i then a dash then 30+10i, with a single dollar sign and no
spaces), profit score 70+5i and demand High; on (pet toys) with count 3 the
names end in 1, 2, 3, the profit scores are 70, 75, 80 and every demand is
High. -/
theorem claim_C7_fallback_products (category : String) (count : Nat) :
    (fallback_products category count).length = count
    ∧ (∀ i, i < count →
        (fallback_products category count)[i]? = some (Json.obj
          [("name", Json.str ("Popular " ++ category ++ " Product " ++ toString (i + 1))),
           ("description", Json.str ("High-demand " ++ category ++ " item with proven sales")),
           ("price", Json.str ("$" ++ toString (20 + 10 * i) ++ "-" ++ toString (30 + 10 * i))),
           ("profit_score", Json.num ((70 + 5 * i : Nat) : Int)),
           ("demand", Json.str ("High"))]))
    ∧ ((fallback_products ("pet toys") 3).map (fun j => objGet j ("name")))
        = [some (Json.str ("Popular pet toys Product 1")),
           some (Json.str ("Popular pet toys Product 2")),
           some (Json.str ("Popular pet toys Product 3"))]
    ∧ ((fallback_products ("pet toys") 3).map (fun j => objGet j ("profit_score")))
        = [some (Json.num 70), some (Json.num 75), some (Json.num 80)]
    ∧ ((fallback_products ("pet toys") 3).map (fun j => objGet j ("demand")))
        = [some (Json.str ("High")), some (Json.str ("High")), some (Json.str ("High"))] := by
  refine ⟨by simp [fallback_products], ?_, rfl, rfl, rfl⟩
  intro i hi
  simp only [fallback_products, List.getElem?_map, List.getElem?_range, hi, if_pos,
    Option.map_some']
  rw [Nat.mul_comm 10 i, Nat.mul_comm 5 i]

/-- Witness for C7 (amended) at category (pet toys), count 3, index 0. -/
theorem claim_C7_witness :
    (fallback_products ("pet toys") 3)[0]? = some (Json.obj
      [("name", Json.str ("Popular pet toys Product 1")),
       ("description", Json.str ("High-demand pet toys item with proven sales")),
       ("price", Json.str ("$20-30")),
       ("profit_score", Json.num 70),
       ("demand", Json.str ("High"))]) :=
  (claim_C7_fallback_products ("pet toys") 3).2.1 0 (by decide)

/-- C3 counterexample: on a well-formed service response whose score field
is 150, `verify_legitimacy` returns the parsed verdict unchanged, so the
returned score is 150, outside the range 0-100. -/
theorem claim_C3_counterexample :
    scoreOf (verify_legitimacy (Except.ok
        ("\x7b\"score\": 150, \"reasoning\": \"ok\", \"risk\": \"Low\"\x7d"))
        ⟨"Acme", "NV", "acme.example", "a@acme.example", [], false⟩)
      = some 150
    ∧ ¬ (∃ s : Int, scoreOf (verify_legitimacy (Except.ok
        ("\x7b\"score\": 150, \"reasoning\": \"ok\", \"risk\": \"Low\"\x7d"))
        ⟨"Acme", "NV", "acme.example", "a@acme.example", [], false⟩)
      = some s ∧ 0 ≤ s ∧ s ≤ 100) := by
  have h1 : scoreOf (verify_legitimacy (Except.ok
      ("\x7b\"score\": 150, \"reasoning\": \"ok\", \"risk\": \"Low\"\x7d"))
      ⟨"Acme", "NV", "acme.example", "a@acme.example", [], false⟩) = some 150 := rfl
  refine ⟨h1, ?_⟩
  rintro ⟨s, hs, h0, h100⟩
  rw [h1] at hs
  have hsv : (150 : Int) = s := Option.some.inj hs
  omega

/-- C3 amended: the fallback path always produces a score within 0-100 (in
fact between 50 and 95), and a failed request yields the fallback verdict;
but on the parse-success path the parsed object is returned unchanged,
without clamping or validation. -/
theorem claim_C3_score_range (d : Supplier) (content : String) :
    (∃ s : Int, scoreOf (fallback_scoring d) = some s ∧ 0 ≤ s ∧ s ≤ 100)
    ∧ verify_legitimacy (Except.error ()) d = fallback_scoring d
    ∧ (∀ st j, extract_json '\x7b' '\x7d' content = some st → json_loads st = some j →
        verify_legitimacy (Except.ok content) d = j) := by
  refine ⟨⟨((min (50 + d.legitimacy_signals.length * 10) 95 : Nat) : Int), rfl,
    by omega, by omega⟩, verify_legitimacy_service_error d, ?_⟩
  intro st j he hj
  exact verify_legitimacy_parse_some content st d j he hj

/-- Witness for C3 (amended): a concrete in-range bound on a fallback
verdict, and a concrete parse-success response returned unchanged. -/
theorem claim_C3_witness :
    verify_legitimacy (Except.ok
        ("\x7b\"score\": 88, \"reasoning\": \"solid\", \"risk\": \"Low\"\x7d"))
        ⟨"Acme", "NV", "acme.example", "a@acme.example", [], false⟩
      = Json.obj [("score", Json.num 88), ("reasoning", Json.str ("solid")),
          ("risk", Json.str ("Low"))] :=
  (claim_C3_score_range ⟨"Acme", "NV", "acme.example", "a@acme.example", [], false⟩
      ("\x7b\"score\": 88, \"reasoning\": \"solid\", \"risk\": \"Low\"\x7d")).2.2
    ("\x7b\"score\": 88, \"reasoning\": \"solid\", \"risk\": \"Low\"\x7d")
    (Json.obj [("score", Json.num 88), ("reasoning", Json.str ("solid")),
      ("risk", Json.str ("Low"))])
    (by decide) rfl

/-- C8: JSON extraction takes the slice from the first opening bracket or
brace to the last closing one and parses it; on the sample text it yields
the one-element array; when the response text has no opening bracket, or
the extracted slice fails to parse, the operation falls back. -/
theorem claim_C8_json_extraction (category : String) (count : Nat) (d : Supplier) :
    extract_json '[' ']' ("Here is the data: [\x7b\"name\":\"X\"\x7d] thanks")
      = some ("[\x7b\"name\":\"X\"\x7d]")
    ∧ json_loads ("[\x7b\"name\":\"X\"\x7d]")
      = some (Json.arr [Json.obj [("name", Json.str ("X"))]])
    ∧ get_product_ideas (Except.ok ("Here is the data: [\x7b\"name\":\"X\"\x7d] thanks"))
        category count
      = Json.arr [Json.obj [("name", Json.str ("X"))]]
    ∧ (∀ content : String, '[' ∉ content.toList →
        get_product_ideas (Except.ok content) category count
          = Json.arr (fallback_products category count))
    ∧ (∀ content st : String,
        extract_json '[' ']' content = some st → json_loads st = none →
        get_product_ideas (Except.ok content) category count
          = Json.arr (fallback_products category count))
    ∧ (∀ content : String, '\x7b' ∉ content.toList →
        verify_legitimacy (Except.ok content) d = fallback_scoring d)
    ∧ (∀ content st : String,
        extract_json '\x7b' '\x7d' content = some st → json_loads st = none →
        verify_legitimacy (Except.ok content) d = fallback_scoring d) := by
  refine ⟨by decide, rfl, rfl, ?_, ?_, ?_, ?_⟩
  · intro content h
    exact get_product_ideas_extract_none content category count
      (extract_json_none_of_not_mem '[' ']' content h)
  · intro content st he hp
    exact get_product_ideas_parse_none content st category count he hp
  · intro content h
    exact verify_legitimacy_extract_none content d
      (extract_json_none_of_not_mem '\x7b' '\x7d' content h)
  · intro content st he hp
    exact verify_legitimacy_parse_none content st d he hp

/-- Witness for C8: a bracket-free response text makes `get_product_ideas`
fall back, and a response whose bracketed slice does not parse makes
`verify_legitimacy` fall back. -/
theorem claim_C8_witness :
    get_product_ideas (Except.ok ("no json here")) ("pets") 2
      = Json.arr (fallback_products ("pets") 2)
    ∧ verify_legitimacy (Except.ok ("broken \x7b not json \x7d end"))
        ⟨"A", "L", "W", "E", [], false⟩
      = fallback_scoring ⟨"A", "L", "W", "E", [], false⟩ :=
  ⟨(claim_C8_json_extraction ("pets") 2 ⟨"A", "L", "W", "E", [], false⟩).2.2.2.1
      ("no json here") (by decide),
   (claim_C8_json_extraction ("pets") 2 ⟨"A", "L", "W", "E", [], false⟩).2.2.2.2.2.2
      ("broken \x7b not json \x7d end") ("\x7b not json \x7d") (by decide) rfl⟩

/-- C2: every service failure, and every extraction or parse failure of the
response text, is caught inside the operation and mapped to its
deterministic fallback value: the synthetic product list, the fallback
verdict, or the static templated email; the operations are total, so no
external-service failure propagates. -/
theorem claim_C2_fallbacks_on_failure (category : String) (count : Nat) (d : Supplier)
    (product_name : String) (user_info : List (String × String)) (content st : String) :
    get_product_ideas (Except.error ()) category count
      = Json.arr (fallback_products category count)
    ∧ (extract_json '[' ']' content = none →
        get_product_ideas (Except.ok content) category count
          = Json.arr (fallback_products category count))
    ∧ (extract_json '[' ']' content = some st → json_loads st = none →
        get_product_ideas (Except.ok content) category count
          = Json.arr (fallback_products category count))
    ∧ verify_legitimacy (Except.error ()) d = fallback_scoring d
    ∧ (extract_json '\x7b' '\x7d' content = none →
        verify_legitimacy (Except.ok content) d = fallback_scoring d)
    ∧ (extract_json '\x7b' '\x7d' content = some st → json_loads st = none →
        verify_legitimacy (Except.ok content) d = fallback_scoring d)
    ∧ generate_outreach_email (Except.error ()) product_name d user_info
        = fallback_email product_name d user_info :=
  ⟨get_product_ideas_service_error category count,
   fun he => get_product_ideas_extract_none content category count he,
   fun he hp => get_product_ideas_parse_none content st category count he hp,
   verify_legitimacy_service_error d,
   fun he => verify_legitimacy_extract_none content d he,
   fun he hp => verify_legitimacy_parse_none content st d he hp,
   rfl⟩

/-- Witness for C2: failures at concrete inputs all map to the fallbacks. -/
theorem claim_C2_witness :
    get_product_ideas (Except.error ()) ("pets") 1 = Json.arr (fallback_products ("pets") 1)
    ∧ get_product_ideas (Except.ok ("oops")) ("pets") 1
        = Json.arr (fallback_products ("pets") 1)
    ∧ verify_legitimacy (Except.error ()) ⟨"A", "L", "W", "E", [], false⟩
        = fallback_scoring ⟨"A", "L", "W", "E", [], false⟩
    ∧ generate_outreach_email (Except.error ()) ("Widget")
        ⟨"A", "L", "W", "E", [], false⟩ []
        = fallback_email ("Widget") ⟨"A", "L", "W", "E", [], false⟩ [] :=
  ⟨(claim_C2_fallbacks_on_failure ("pets") 1 ⟨"A", "L", "W", "E", [], false⟩
      ("Widget") [] ("oops") ("")).1,
   (claim_C2_fallbacks_on_failure ("pets") 1 ⟨"A", "L", "W", "E", [], false⟩
      ("Widget") [] ("oops") ("")).2.1 (by decide),
   (claim_C2_fallbacks_on_failure ("pets") 1 ⟨"A", "L", "W", "E", [], false⟩
      ("Widget") [] ("oops") ("")).2.2.2.1,
   (claim_C2_fallbacks_on_failure ("pets") 1 ⟨"A", "L", "W", "E", [], false⟩
      ("Widget") [] ("oops") ("")).2.2.2.2.2.2⟩

/-- C9: the catalog loader returns the empty dict when the backing file is
missing or its contents fail to parse, and the parsed catalog unchanged on
success; it is a total function, so no exception propagates. -/
theorem claim_C9_loader :
    load_distributors none = Json.obj []
    ∧ (∀ content, json_loads content = none →
        load_distributors (some content) = Json.obj [])
    ∧ (∀ content j, json_loads content = some j →
        load_distributors (some content) = j) := by
  refine ⟨rfl, ?_, ?_⟩
  · intro content h
    show (match json_loads content with
      | some j => j
      | none => Json.obj []) = Json.obj []
    rw [h]
  · intro content j h
    show (match json_loads content with
      | some j => j
      | none => Json.obj []) = j
    rw [h]

/-- Witness for C9: a malformed file yields the empty dict, a well-formed
one the parsed catalog. -/
theorem claim_C9_witness :
    load_distributors (some ("not json")) = Json.obj []
    ∧ load_distributors (some ("\x7b\"electronics\": []\x7d"))
        = Json.obj [("electronics", Json.arr [])] :=
  ⟨claim_C9_loader.2.1 ("not json") rfl,
   claim_C9_loader.2.2 ("\x7b\"electronics\": []\x7d")
     (Json.obj [("electronics", Json.arr [])]) rfl⟩

lemma prefix_at_iff (n h : List Char) : prefix_at n h = true ↔ n <+: h := by
  induction n generalizing h with
  | nil => simp [prefix_at]
  | cons a as ih =>
    cases h with
    | nil => simp [prefix_at]
    | cons b bs => simp [prefix_at, List.cons_prefix_cons, ih, and_comm]

lemma str_in_iff_infix (n h : List Char) : str_in n h = true ↔ n <:+: h := by
  induction h with
  | nil => simp [str_in, prefix_at_iff, List.infix_nil, List.prefix_nil]
  | cons b bs ih => simp [str_in, prefix_at_iff, List.infix_cons_iff, ih]
